import Mathlib

/-!
Verification of `ChiSquareTestOfHomogeneity.py` (a Python 2 / pandas script).

Shallow embedding notes:
- A population dataset is modelled by its condition column only: a `List Int`
  (the script reads no other column).  `pop_data[cond].sum()` is `List.sum`,
  `pop_data[cond].count()` is `List.length` (the binary column has no NA).
- The pandas contingency tables are modelled as records with one field per
  cell; the `.T[[...]].T` reorderings in the script permute labels only and do
  not change any cell value.
- All counts are numpy `int64`; the script runs under Python 2 (it uses
  `print` statements), so the scalar quotient in `calculate_E` is numpy
  integer floor division, modelled by `Int.fdiv`.  numpy integer division by
  zero returns 0 (with a runtime warning, not an exception), which agrees
  with `Int.fdiv _ 0 = 0`.
- The DataFrame arithmetic in `run_test` (`-`, `**2`, `/`) uses pandas
  elementwise true division, modelled exactly over `ℚ`.
- The two `raise ValueError` branches of `__init__` and the `IndexError`
  raised by out-of-range indexing are modelled by `Except InitError`.
-/

namespace ChiSquare

/-- Errors that `__init__` can raise.  The script raises `ValueError` for the
two validation failures (the spec calls both a ConfigurationError) and a bare
`IndexError` when list indexing is out of range. -/
inductive InitError where
  | tooManyPopulations
  | duplicatePopulation
  | indexError
deriving DecidableEq

/-- The spec groups the two `ValueError` branches of `__init__` under the name
ConfigurationError; an `IndexError` is not one of them. -/
def InitError.isConfigurationError : InitError → Bool
  | .tooManyPopulations => true
  | .duplicatePopulation => true
  | .indexError => false

/-- The state stored on `self` by a successful `__init__`. -/
structure Config where
  pop1_data : List Int
  pop2_data : List Int
  pop1_label : String
  pop2_label : String
  condition : String
  inverse_condition : String
  alpha : ℚ
  crit : ℚ

/-- Python list indexing `l[i]`, raising `IndexError` when out of range. -/
def listGet {α : Type} (l : List α) (i : Nat) : Except InitError α :=
  match l.get? i with
  | some a => .ok a
  | none => .error .indexError

/-- `__init__(self, population_labels=[], population_datasets=[], condition="",
alpha=0.01, critical_value=6.635)`.  Python `len(set(labels))` is
`labels.dedup.length`.  The assignments on the success path unpack
`population_datasets[0], population_datasets[1]` first, then
`population_labels[0], population_labels[1]`, each of which can raise
`IndexError`. -/
def chiSquareInit (population_labels : List String)
    (population_datasets : List (List Int)) (condition : String)
    (alpha : ℚ) (critical_value : ℚ) : Except InitError Config :=
  if population_labels.length > 2 then
    .error .tooManyPopulations
  else if population_labels.dedup.length ≠ population_labels.length then
    .error .duplicatePopulation
  else do
    let pop1_data ← listGet population_datasets 0
    let pop2_data ← listGet population_datasets 1
    let pop1_label ← listGet population_labels 0
    let pop2_label ← listGet population_labels 1
    pure { pop1_data := pop1_data, pop2_data := pop2_data,
           pop1_label := pop1_label, pop2_label := pop2_label,
           condition := condition,
           inverse_condition := "Not " ++ condition,
           alpha := alpha, crit := critical_value }

/-- `calculate_condition_counts(self, pop_data)`: returns
`(pop_data[cond].sum(), pop_data[cond].count() - pop_data[cond].sum())`. -/
def calculate_condition_counts (pop_data : List Int) : Int × Int :=
  (pop_data.sum, (pop_data.length : Int) - pop_data.sum)

/-- The 3x3 comparison (observed contingency) table produced by
`generate_comp_table`: rows pop1, pop2, Total; columns condition,
inverse-condition, Total. -/
structure CompTable where
  pop1_cond : Int
  pop1_inv : Int
  pop1_tot : Int
  pop2_cond : Int
  pop2_inv : Int
  pop2_tot : Int
  tot_cond : Int
  tot_inv : Int
  tot_tot : Int
deriving DecidableEq

/-- `generate_comp_table(self)`: builds `self.comp_table` from the condition
counts of both populations.  The trailing `.T[[pop1, pop2, "Total"]].T` only
reorders rows, leaving every labelled cell unchanged. -/
def generate_comp_table (cfg : Config) : CompTable :=
  let pc1 := calculate_condition_counts cfg.pop1_data
  let pc2 := calculate_condition_counts cfg.pop2_data
  let total_condition := pc1.1 + pc2.1
  let total_inverse := pc1.2 + pc2.2
  let total_pop1 : Int := cfg.pop1_data.length
  let total_pop2 : Int := cfg.pop2_data.length
  { pop1_cond := pc1.1, pop1_inv := pc1.2, pop1_tot := total_pop1,
    pop2_cond := pc2.1, pop2_inv := pc2.2, pop2_tot := total_pop2,
    tot_cond := total_condition, tot_inv := total_inverse,
    tot_tot := total_pop1 + total_pop2 }

/-- `calculate_E(self, row_total, column_total)`: reads
`grand_total = self.comp_table.loc["Total"]["Total"]` and returns
`(row_total * column_total) / grand_total`.  The operands are numpy `int64`
scalars and the script is Python 2, so `/` is floor division (`Int.fdiv`);
numpy evaluates integer division by zero to 0 instead of raising. -/
def calculate_E (ct : CompTable) (row_total column_total : Int) : Int :=
  Int.fdiv (row_total * column_total) ct.tot_tot

/-- `calculate_E_by_pop(self, pop)`: reads the three cells of comparison-table
row `pop` - `loc[pop]["Total"]`, `loc[pop][inverse_condition]`,
`loc[pop][condition]` - and returns
`(calculate_E(row_total, row_inverse_cell), calculate_E(row_total, row_condition_cell))`.
Note the second argument of each call is the observed cell of row `pop`
itself, not a Total-row entry. -/
def calculate_E_by_pop (ct : CompTable) (pop_tot pop_inv pop_cond : Int) :
    Int × Int :=
  (calculate_E ct pop_tot pop_inv, calculate_E ct pop_tot pop_cond)

/-- The 2x2 expected-frequency table produced by `generate_e_table`. -/
structure ETable where
  pop1_cond : Int
  pop1_inv : Int
  pop2_cond : Int
  pop2_inv : Int
deriving DecidableEq

/-- `generate_e_table(self)`: builds `self.e_table` by calling
`calculate_E_by_pop` on each population row of the comparison table. -/
def generate_e_table (ct : CompTable) : ETable :=
  let e1 := calculate_E_by_pop ct ct.pop1_tot ct.pop1_inv ct.pop1_cond
  let e2 := calculate_E_by_pop ct ct.pop2_tot ct.pop2_inv ct.pop2_cond
  { pop1_cond := e1.2, pop1_inv := e1.1, pop2_cond := e2.2, pop2_inv := e2.1 }

/-- One cell of steps 1-3 of `run_test`: `((observed - expected)**2) / expected`.
The subtraction and squaring stay in `int64`; the final `/` is pandas
DataFrame true division, modelled exactly in `ℚ`. -/
def cell_chi (o e : Int) : ℚ :=
  (((o - e) ^ 2 : Int) : ℚ) / (e : ℚ)

/-- The values computed and reported by `run_test` / `print_results`:
`self.chi_square`, `self.crit`, `self.alpha` and the printed verdict
`self.chi_square > self.crit`. -/
structure TestResult where
  chi_square : ℚ
  critical_value : ℚ
  alpha : ℚ
  is_significant : Bool
deriving DecidableEq

/-- `run_test(self)`: generates both tables, forms
`diff = (comp_wo_totals - e_table)**2 / e_table` (pandas aligns the four cells
by row and column label) and sums the pop1 row and the pop2 row.
`print_results` then reports `chi_square`, `crit`, `alpha` and
`chi_square > crit`. -/
def run_test (cfg : Config) : TestResult :=
  let ct := generate_comp_table cfg
  let et := generate_e_table ct
  let chi := (cell_chi ct.pop1_inv et.pop1_inv + cell_chi ct.pop1_cond et.pop1_cond)
    + (cell_chi ct.pop2_inv et.pop2_inv + cell_chi ct.pop2_cond et.pop2_cond)
  { chi_square := chi, critical_value := cfg.crit, alpha := cfg.alpha,
    is_significant := decide (chi > cfg.crit) }

/-- Population A of the spec concrete scenario: 10 records, 6 with
condition = 1. -/
def popA : List Int := List.replicate 6 1 ++ List.replicate 4 0

/-- Population B of the spec concrete scenario: 10 records, 2 with
condition = 1. -/
def popB : List Int := List.replicate 2 1 ++ List.replicate 8 0

/-- The test instance of the spec concrete scenario, with the default
`alpha = 0.01` and `critical_value = 6.635`. -/
def scenarioCfg : Config :=
  { pop1_data := popA, pop2_data := popB, pop1_label := "A", pop2_label := "B",
    condition := "condition", inverse_condition := "Not condition",
    alpha := 1 / 100, crit := 6635 / 1000 }

/-- Two identical populations, each [1, 1, 0, 0]: same condition proportions. -/
def popC : List Int := [1, 1, 0, 0]

/-- Test instance on two identical populations, default parameters. -/
def identCfg : Config :=
  { pop1_data := popC, pop2_data := popC, pop1_label := "A", pop2_label := "B",
    condition := "condition", inverse_condition := "Not condition",
    alpha := 1 / 100, crit := 6635 / 1000 }

/-- Test instance whose critical value ties the chi-square statistic. -/
def critTieCfg : Config :=
  { pop1_data := popC, pop2_data := popC, pop1_label := "A", pop2_label := "B",
    condition := "condition", inverse_condition := "Not condition",
    alpha := 1 / 100, crit := 4 }

/-- Test instance with two empty populations: grand total 0. -/
def emptyCfg : Config :=
  { pop1_data := [], pop2_data := [], pop1_label := "A", pop2_label := "B",
    condition := "condition", inverse_condition := "Not condition",
    alpha := 1 / 100, crit := 6635 / 1000 }

/-- Test instance with populations [1] and [1, 0]: grand total 3, so the
integer division of `calculate_E` truncates. -/
def truncCfg : Config :=
  { pop1_data := [1], pop2_data := [1, 0], pop1_label := "A", pop2_label := "B",
    condition := "condition", inverse_condition := "Not condition",
    alpha := 1 / 100, crit := 6635 / 1000 }

/-- C1: the code does not implement the homogeneity expected-frequency
formula.  At the concrete scenario (population A: 10 records, 6 with the
condition; population B: 10 records, 2 with the condition) the code puts 3 in
the expected cell (A, condition), while
row_total[A] * column_total[condition] / grand_total = 10 * 8 / 20 = 4:
`calculate_E_by_pop` passes the observed cell of row A where the Total-row
entry of the column is required. -/
theorem expected_cell_ne_homogeneity_formula :
    ((generate_e_table (generate_comp_table scenarioCfg)).pop1_cond : ℚ) = 3 ∧
    ((generate_comp_table scenarioCfg).pop1_tot : ℚ)
        * ((generate_comp_table scenarioCfg).tot_cond : ℚ)
        / ((generate_comp_table scenarioCfg).tot_tot : ℚ) = 4 ∧
    ((generate_e_table (generate_comp_table scenarioCfg)).pop1_cond : ℚ) ≠
      ((generate_comp_table scenarioCfg).pop1_tot : ℚ)
        * ((generate_comp_table scenarioCfg).tot_cond : ℚ)
        / ((generate_comp_table scenarioCfg).tot_tot : ℚ) := by
  refine ⟨?_, ?_, ?_⟩
  · show ((3 : Int) : ℚ) = 3
    norm_num
  · show ((10 : Int) : ℚ) * ((8 : Int) : ℚ) / ((20 : Int) : ℚ) = 4
    norm_num
  · show ((3 : Int) : ℚ) ≠ ((10 : Int) : ℚ) * ((8 : Int) : ℚ) / ((20 : Int) : ℚ)
    norm_num

/-- C2: at the concrete scenario the code computes chi-square 10 - not
10/3 - and the verdict against the default critical value 6.635 is
significant, not insignificant. -/
theorem run_test_scenario_values :
    (run_test scenarioCfg).chi_square = 10 ∧
    (run_test scenarioCfg).critical_value = 6635 / 1000 ∧
    (run_test scenarioCfg).alpha = 1 / 100 ∧
    (run_test scenarioCfg).is_significant = true := by
  refine ⟨?_, rfl, rfl, ?_⟩
  · show (cell_chi 4 2 + cell_chi 6 3) + (cell_chi 8 4 + cell_chi 2 1) = 10
    norm_num [cell_chi]
  · show decide ((cell_chi 4 2 + cell_chi 6 3) + (cell_chi 8 4 + cell_chi 2 1)
        > 6635 / 1000) = true
    norm_num [cell_chi]

/-- C3: two populations with identical condition proportions do not yield a
zero statistic: with pop1_data = pop2_data = [1, 1, 0, 0] the code computes
chi-square 4, because the wrongly built expected table differs from the
observed one even for identical populations. -/
theorem identical_populations_nonzero_chi :
    identCfg.pop1_data = identCfg.pop2_data ∧
    (run_test identCfg).chi_square = 4 ∧
    (run_test identCfg).chi_square ≠ 0 := by
  refine ⟨rfl, ?_, ?_⟩
  · show (cell_chi 2 1 + cell_chi 2 1) + (cell_chi 2 1 + cell_chi 2 1) = 4
    norm_num [cell_chi]
  · show (cell_chi 2 1 + cell_chi 2 1) + (cell_chi 2 1 + cell_chi 2 1) ≠ 0
    norm_num [cell_chi]

/-- C4: `run_test` reports the chi-square statistic, the critical value, the
alpha level and a verdict computed as the strict comparison
chi_square > critical_value, so a tie is not significant. -/
theorem run_test_verdict_strict (cfg : Config) :
    (run_test cfg).critical_value = cfg.crit ∧
    (run_test cfg).alpha = cfg.alpha ∧
    ((run_test cfg).is_significant = true ↔
      (run_test cfg).chi_square > (run_test cfg).critical_value) ∧
    ((run_test cfg).chi_square = (run_test cfg).critical_value →
      (run_test cfg).is_significant = false) := by
  have hsig : (run_test cfg).is_significant
      = decide ((run_test cfg).chi_square > (run_test cfg).critical_value) :=
    rfl
  refine ⟨rfl, rfl, ?_, ?_⟩
  · rw [hsig]
    exact decide_eq_true_iff
  · intro h
    rw [hsig, h]
    exact decide_eq_false (lt_irrefl _)

/-- C4 witness: a run whose statistic exactly equals the critical value is
reported as not significant. -/
theorem run_test_verdict_strict_witness :
    (run_test critTieCfg).chi_square = (run_test critTieCfg).critical_value ∧
    (run_test critTieCfg).is_significant = false := by
  have h : (run_test critTieCfg).chi_square
      = (run_test critTieCfg).critical_value := by
    show (cell_chi 2 1 + cell_chi 2 1) + (cell_chi 2 1 + cell_chi 2 1) = 4
    norm_num [cell_chi]
  exact ⟨h, (run_test_verdict_strict critTieCfg).2.2.2 h⟩

/-- C5: `__init__` rejects more than two labels and rejects duplicate labels
(both a ValueError, the ConfigurationError of the spec), and on two distinct
labels with two paired datasets succeeds, storing the first label with the
first dataset and the second label with the second dataset. -/
theorem init_validation :
    (∀ (ls : List String) (ds : List (List Int)) (cond : String) (a c : ℚ),
      ls.length > 2 →
        ∃ e, chiSquareInit ls ds cond a c = .error e ∧
          e.isConfigurationError = true) ∧
    (∀ (x : String) (ds : List (List Int)) (cond : String) (a c : ℚ),
      ∃ e, chiSquareInit [x, x] ds cond a c = .error e ∧
        e.isConfigurationError = true) ∧
    (∀ (x y : String) (d1 d2 : List Int) (cond : String) (a c : ℚ), x ≠ y →
      chiSquareInit [x, y] [d1, d2] cond a c =
        .ok { pop1_data := d1, pop2_data := d2, pop1_label := x,
              pop2_label := y, condition := cond,
              inverse_condition := "Not " ++ cond, alpha := a, crit := c }) := by
  refine ⟨?_, ?_, ?_⟩
  · intro ls ds cond a c h
    refine ⟨.tooManyPopulations, ?_, rfl⟩
    unfold chiSquareInit
    rw [if_pos h]
  · intro x ds cond a c
    refine ⟨.duplicatePopulation, ?_, rfl⟩
    have hd : ([x, x] : List String).dedup = [x] := by
      rw [List.dedup_cons_of_mem (List.mem_singleton_self x),
        List.dedup_cons_of_not_mem (List.not_mem_nil x), List.dedup_nil]
    unfold chiSquareInit
    rw [if_neg (by simp), if_pos (by rw [hd]; simp)]
  · intro x y d1 d2 cond a c hxy
    have hd : ([x, y] : List String).dedup = [x, y] := by
      rw [List.dedup_cons_of_not_mem (by simpa using hxy),
        List.dedup_cons_of_not_mem (List.not_mem_nil y), List.dedup_nil]
    unfold chiSquareInit
    rw [if_neg (by simp), if_neg (fun hne => hne (by rw [hd]))]
    rfl

/-- C5 witness: three labels are rejected, duplicate labels are rejected,
and two distinct labels with two datasets are stored positionally. -/
theorem init_validation_witness :
    (∃ e, chiSquareInit ["A", "B", "C"] [] "" (1 / 100) (6635 / 1000)
        = .error e ∧ e.isConfigurationError = true) ∧
    (∃ e, chiSquareInit ["A", "A"] [] "" (1 / 100) (6635 / 1000)
        = .error e ∧ e.isConfigurationError = true) ∧
    chiSquareInit ["A", "B"] [[1], [0, 1]] "cond" (1 / 100) (6635 / 1000)
      = .ok { pop1_data := [1], pop2_data := [0, 1], pop1_label := "A",
              pop2_label := "B", condition := "cond",
              inverse_condition := "Not " ++ "cond",
              alpha := 1 / 100, crit := 6635 / 1000 } :=
  ⟨init_validation.1 ["A", "B", "C"] [] "" (1 / 100) (6635 / 1000) (by decide),
    init_validation.2.1 "A" [] "" (1 / 100) (6635 / 1000),
    init_validation.2.2 "A" "B" [1] [0, 1] "cond" (1 / 100) (6635 / 1000)
      (by decide)⟩

/-- C6: with both populations empty the grand total of the observed table is
0, yet the expected table is still built: the script has no error path at
all in `calculate_E` (numpy evaluates the integer divisions by zero to 0,
with a warning only) and yields the all-zero expected table instead of a
DataError. -/
theorem zero_grand_total_no_error :
    (generate_comp_table emptyCfg).tot_tot = 0 ∧
    generate_e_table (generate_comp_table emptyCfg) =
      { pop1_cond := 0, pop1_inv := 0, pop2_cond := 0, pop2_inv := 0 } :=
  ⟨by decide, by decide⟩

/-- C7: for 0/1-valued populations, each population row of the observed
table sums to its Total cell, each outcome column sums to its Total cell,
and the grand total is the sum of both record counts. -/
theorem comp_table_invariants (cfg : Config)
    (h1 : ∀ v ∈ cfg.pop1_data, v = 0 ∨ v = 1)
    (h2 : ∀ v ∈ cfg.pop2_data, v = 0 ∨ v = 1) :
    (generate_comp_table cfg).pop1_cond + (generate_comp_table cfg).pop1_inv
        = (generate_comp_table cfg).pop1_tot ∧
    (generate_comp_table cfg).pop2_cond + (generate_comp_table cfg).pop2_inv
        = (generate_comp_table cfg).pop2_tot ∧
    (generate_comp_table cfg).pop1_cond + (generate_comp_table cfg).pop2_cond
        = (generate_comp_table cfg).tot_cond ∧
    (generate_comp_table cfg).pop1_inv + (generate_comp_table cfg).pop2_inv
        = (generate_comp_table cfg).tot_inv ∧
    (generate_comp_table cfg).tot_tot
        = (cfg.pop1_data.length : Int) + (cfg.pop2_data.length : Int) := by
  refine ⟨?_, ?_, rfl, rfl, rfl⟩
  · show cfg.pop1_data.sum
        + ((cfg.pop1_data.length : Int) - cfg.pop1_data.sum)
      = (cfg.pop1_data.length : Int)
    ring
  · show cfg.pop2_data.sum
        + ((cfg.pop2_data.length : Int) - cfg.pop2_data.sum)
      = (cfg.pop2_data.length : Int)
    ring

/-- C7 witness: the row invariant at the concrete scenario instance. -/
theorem comp_table_invariants_witness :
    (∀ v ∈ scenarioCfg.pop1_data, v = 0 ∨ v = 1) ∧
    (∀ v ∈ scenarioCfg.pop2_data, v = 0 ∨ v = 1) ∧
    (generate_comp_table scenarioCfg).pop1_cond
        + (generate_comp_table scenarioCfg).pop1_inv
      = (generate_comp_table scenarioCfg).pop1_tot :=
  ⟨by decide, by decide,
    (comp_table_invariants scenarioCfg (by decide) (by decide)).1⟩

/-- C8: on a 0/1-valued condition column, `calculate_condition_counts`
returns a pair of non-negative integers summing to the record count.  (The
embedding is a pure function of the column: the source method only reads
`pop_data`, so the population is left unchanged.) -/
theorem calculate_condition_counts_spec (l : List Int)
    (h : ∀ v ∈ l, v = 0 ∨ v = 1) :
    0 ≤ (calculate_condition_counts l).1 ∧
    0 ≤ (calculate_condition_counts l).2 ∧
    (calculate_condition_counts l).1 + (calculate_condition_counts l).2
      = (l.length : Int) := by
  have hnn : (0 : Int) ≤ l.sum :=
    List.sum_nonneg fun x hx => by rcases h x hx with h0 | h0 <;> simp [h0]
  have hle : l.sum ≤ (l.length : Int) := by
    have hs := List.sum_le_card_nsmul l 1 fun x hx => by
      rcases h x hx with h0 | h0 <;> simp [h0]
    simpa [nsmul_eq_mul] using hs
  refine ⟨hnn, ?_, ?_⟩
  · show (0 : Int) ≤ (l.length : Int) - l.sum
    exact sub_nonneg.mpr hle
  · show l.sum + ((l.length : Int) - l.sum) = (l.length : Int)
    ring

/-- C8 witness: the counts on the column [1, 0, 1, 1]. -/
theorem calculate_condition_counts_spec_witness :
    (∀ v ∈ ([1, 0, 1, 1] : List Int), v = 0 ∨ v = 1) ∧
    (calculate_condition_counts [1, 0, 1, 1]).1
        + (calculate_condition_counts [1, 0, 1, 1]).2
      = (([1, 0, 1, 1] : List Int).length : Int) :=
  ⟨by decide, (calculate_condition_counts_spec [1, 0, 1, 1] (by decide)).2.2⟩

/-- C9: `calculate_E` truncates.  With populations [1] and [1, 0] the grand
total is 3; for row_total = 1 (population A) and column_total = 2 (condition
column Total) the code returns 1 * 2 / 3 = 0 under Python 2 integer
division, while the exact rational quotient is 2/3. -/
theorem calculate_E_truncates :
    calculate_E (generate_comp_table truncCfg)
        (generate_comp_table truncCfg).pop1_tot
        (generate_comp_table truncCfg).tot_cond = 0 ∧
    ((generate_comp_table truncCfg).pop1_tot : ℚ)
        * ((generate_comp_table truncCfg).tot_cond : ℚ)
        / ((generate_comp_table truncCfg).tot_tot : ℚ) = 2 / 3 ∧
    ((calculate_E (generate_comp_table truncCfg)
        (generate_comp_table truncCfg).pop1_tot
        (generate_comp_table truncCfg).tot_cond : Int) : ℚ) ≠
      ((generate_comp_table truncCfg).pop1_tot : ℚ)
        * ((generate_comp_table truncCfg).tot_cond : ℚ)
        / ((generate_comp_table truncCfg).tot_tot : ℚ) := by
  refine ⟨by decide, ?_, ?_⟩
  · show ((1 : Int) : ℚ) * ((2 : Int) : ℚ) / ((3 : Int) : ℚ) = 2 / 3
    norm_num
  · show ((0 : Int) : ℚ) ≠ ((1 : Int) : ℚ) * ((2 : Int) : ℚ) / ((3 : Int) : ℚ)
    norm_num

/-- C10: with fewer than two labels or fewer than two datasets (the label
list otherwise passing the two validation checks), `__init__` does not raise
its ValueError (ConfigurationError): the unpacking of the first two datasets
or labels raises IndexError instead. -/
theorem init_short_input_index_error (ls : List String) (ds : List (List Int))
    (cond : String) (a c : ℚ)
    (h : ls.length < 2 ∨
      (ds.length < 2 ∧ ls.length ≤ 2 ∧ ls.dedup.length = ls.length)) :
    chiSquareInit ls ds cond a c = .error .indexError ∧
    InitError.indexError.isConfigurationError = false := by
  refine ⟨?_, rfl⟩
  have h2 : ¬ ls.length > 2 := by
    rcases h with h | ⟨-, h, -⟩ <;> omega
  have hd : ls.dedup.length = ls.length := by
    rcases h with h | ⟨-, -, h⟩
    · rcases ls with _ | ⟨x, _ | ⟨y, t⟩⟩
      · rfl
      · rw [List.dedup_cons_of_not_mem (List.not_mem_nil x), List.dedup_nil]
      · simp only [List.length_cons] at h
        omega
    · exact h
  unfold chiSquareInit
  rw [if_neg h2, if_neg (fun hne => hne hd)]
  rcases h with h | ⟨h, -, -⟩
  · rcases ls with _ | ⟨x, _ | ⟨y, t⟩⟩
    · rcases ds with _ | ⟨d0, _ | ⟨d1, t2⟩⟩ <;> rfl
    · rcases ds with _ | ⟨d0, _ | ⟨d1, t2⟩⟩ <;> rfl
    · simp only [List.length_cons] at h
      omega
  · rcases ds with _ | ⟨d0, _ | ⟨d1, t2⟩⟩
    · rfl
    · rfl
    · simp only [List.length_cons] at h
      omega

/-- C10 witness: constructing with the empty default arguments fails with
IndexError, not with a ValueError. -/
theorem init_short_input_index_error_witness :
    chiSquareInit [] [] "" (1 / 100) (6635 / 1000) = .error .indexError :=
  (init_short_input_index_error [] [] "" (1 / 100) (6635 / 1000)
    (Or.inl (by decide))).1

end ChiSquare
